import Mathlib

/-!
Verification of the repository-analysis and classification pipeline of
DataTalksClub-Projects.

The Python modules `utils/repo_analyzer.py`, `utils/openai_api.py`,
`utils/csv_handler.py` and `src/generate_titles_and_classify.py` are shallowly
embedded below.  Python strings are modelled as `List Char` (wrapped in Lean
`String`s at the interfaces); the Python string methods used by the code
(`split`, `strip`, `rstrip`, `replace`, `startswith`, `endswith`, `lower`,
substring membership) are reimplemented as executable Lean functions with the
same semantics on the inputs that occur in this code base (ASCII case folding
suffices for `lower` here, since every string the code lowercases before
comparing is ASCII).  Network calls (GitHub API, LLM endpoint) are modelled as
explicit oracle parameters; Python exceptions are modelled with `Except`.
-/

/-! ## Python-style string primitives over `List Char` -/

/-- ASCII lower casing of one character, the behaviour of Python `str.lower`
on ASCII input. -/
def asciiLowerChar (c : Char) : Char :=
  if 'A' ≤ c ∧ c ≤ 'Z' then Char.ofNat (c.toNat + 32) else c

/-- ASCII lower casing of a character list. -/
def asciiLower (s : List Char) : List Char := s.map asciiLowerChar

/-- `sub` occurs at the head of `s` (Python `str.startswith`). -/
def startsWithChars (sub s : List Char) : Bool :=
  match sub, s with
  | [], _ => true
  | _ :: _, [] => false
  | a :: as, b :: bs => a == b && startsWithChars as bs

/-- Python substring membership `sub in s`. -/
def containsChars (sub : List Char) : List Char → Bool
  | [] => startsWithChars sub []
  | c :: cs => startsWithChars sub (c :: cs) || containsChars sub cs

/-- Python `str.endswith`. -/
def endsWithChars (sub s : List Char) : Bool :=
  startsWithChars sub.reverse s.reverse

/-- The whitespace characters stripped by Python `str.strip()`. -/
def pyIsSpace (c : Char) : Bool :=
  c == ' ' || c == '\t' || c == '\n' || c == '\r' || c == Char.ofNat 11 || c == Char.ofNat 12

/-- Python `str.strip()` (no argument): drop leading and trailing whitespace. -/
def pyStrip (s : List Char) : List Char :=
  ((s.dropWhile pyIsSpace).reverse.dropWhile pyIsSpace).reverse

/-- Python `str.rstrip(c)` for a single character. -/
def pyRstripChar (c : Char) (s : List Char) : List Char :=
  (s.reverse.dropWhile (· == c)).reverse

/-- Python `str.split(sep)` for a one-character separator: keeps empty pieces. -/
def pySplitChar (sep : Char) : List Char → List (List Char)
  | [] => [[]]
  | c :: cs =>
    let rest := pySplitChar sep cs
    if c == sep then [] :: rest
    else
      match rest with
      | [] => [[c]]
      | p :: ps => (c :: p) :: ps

/-- Python `str.split(sep, 1)` for a multi-character separator: the part before
the first occurrence of `sep`, and the remainder after it when `sep` occurs. -/
def pySplitOnce (sep : List Char) : List Char → List Char × Option (List Char)
  | [] => ([], none)
  | c :: cs =>
    if sep ≠ [] ∧ startsWithChars sep (c :: cs) then
      ([], some (List.drop (sep.length - 1) cs))
    else
      let r := pySplitOnce sep cs
      (c :: r.1, r.2)

/-- Recursion core of `pyReplace`; the fuel (initially the length of the
string, which bounds the number of steps) keeps the recursion structural so
that applications reduce inside the kernel. -/
def pyReplaceAux (sub repl : List Char) : Nat → List Char → List Char
  | _, [] => []
  | 0, s => s
  | fuel + 1, c :: cs =>
    if sub ≠ [] ∧ startsWithChars sub (c :: cs) then
      repl ++ pyReplaceAux sub repl fuel (List.drop (sub.length - 1) cs)
    else
      c :: pyReplaceAux sub repl fuel cs

/-- Python `str.replace(sub, repl)` for a non-empty `sub`: left-to-right,
non-overlapping replacement of every occurrence. -/
def pyReplace (sub repl s : List Char) : List Char :=
  pyReplaceAux sub repl s.length s

/-- Python `str.split()` with no argument: split on whitespace runs,
discarding empty pieces. -/
def pySplitWs : List Char → List (List Char)
  | [] => []
  | c :: cs =>
    if pyIsSpace c then pySplitWs cs
    else
      match pySplitWs cs with
      | [] => [[c]]
      | p :: ps =>
        match cs with
        | [] => [[c]]
        | d :: _ => if pyIsSpace d then [c] :: p :: ps else (c :: p) :: ps

/-- A Python `\w` regex character: ASCII letters, digits, or underscore
(the inputs tokenised by this code base are ASCII). -/
def pyIsWordChar (c : Char) : Bool :=
  ('a' ≤ c ∧ c ≤ 'z') || ('A' ≤ c ∧ c ≤ 'Z') || ('0' ≤ c ∧ c ≤ '9') || c == '_'

/-- Python `re.findall(r'\w+', s)`: the maximal runs of word characters. -/
def findallWordRuns : List Char → List (List Char)
  | [] => []
  | c :: cs =>
    if pyIsWordChar c then
      match findallWordRuns cs with
      | [] => [[c]]
      | p :: ps =>
        match cs with
        | [] => [[c]]
        | d :: _ => if pyIsWordChar d then (c :: p) :: ps else [c] :: p :: ps
    else findallWordRuns cs

/-! String-level wrappers. -/

/-- String wrapper for `asciiLower`. -/
def lowerStr (s : String) : String := ⟨asciiLower s.data⟩

/-- String wrapper for `containsChars` (Python `sub in s`). -/
def containsStr (s sub : String) : Bool := containsChars sub.data s.data

/-- String wrapper for `startsWithChars` (Python `s.startswith(sub)`). -/
def startsWithStr (s sub : String) : Bool := startsWithChars sub.data s.data

/-- String wrapper for `endsWithChars` (Python `s.endswith(sub)`). -/
def endsWithStr (s sub : String) : Bool := endsWithChars sub.data s.data

/-- String wrapper for `pyStrip`. -/
def pyStripStr (s : String) : String := ⟨pyStrip s.data⟩

/-- String wrapper for `pyReplace` (Python `s.replace(sub, repl)`). -/
def pyReplaceStr (s sub repl : String) : String := ⟨pyReplace sub.data repl.data s.data⟩

/-- Python `s[:n]` on strings. -/
def pyTakeStr (n : Nat) (s : String) : String := ⟨s.data.take n⟩

/-! ## `utils/repo_analyzer.py` — `RepoAnalyzer.parse_github_url` -/

/-- The normalisation phase of `parse_github_url`: strip trailing `/`,
split away a `/tree/<branch>[/<subpath>]` segment, and drop a `.git` suffix.
Returns the remaining URL and the optional subpath (case preserved). -/
def normalizeGithubUrl (url : String) : List Char × Option (List Char) :=
  let u := pyRstripChar '/' url.data
  let (u, subpath) :=
    if containsChars "/tree/".data u then
      let (base, rest) := pySplitOnce "/tree/".data u
      match rest with
      | none => (base, none)
      | some treePart =>
        let (_, afterBranch) := pySplitOnce "/".data treePart
        (base, afterBranch)
    else (u, none)
  let u := if endsWithChars ".git".data u then u.take (u.length - 4) else u
  (u, subpath)

/-- The `/`-separated parts of the normalised URL after removing every
occurrence of `https://github.com/` (Python `str.replace` removes all
occurrences). -/
def githubUrlParts (url : String) : List (List Char) :=
  pySplitChar '/' (pyReplace "https://github.com/".data [] (normalizeGithubUrl url).1)

/-- `RepoAnalyzer.parse_github_url` (utils/repo_analyzer.py, lines 84-110):
returns `(owner, repo, subpath)`, all `none` when fewer than two
`/`-separated parts remain. -/
def parse_github_url (url : String) : Option String × Option String × Option String :=
  match githubUrlParts url, (normalizeGithubUrl url).2 with
  | a :: b :: _, subpath => (some ⟨a⟩, some ⟨b⟩, subpath.map (⟨·⟩))
  | _, _ => (none, none, none)

/-! ## `utils/repo_analyzer.py` — `RepoAnalyzer._should_fetch_file` -/

/-- `RepoAnalyzer.KEY_FILES` (utils/repo_analyzer.py, lines 22-33). -/
def KEY_FILES : List String :=
  ["README.md", "readme.md", "README", "docker-compose.yml", "docker-compose.yaml",
   "requirements.txt", "pyproject.toml", "Dockerfile", "Makefile", "setup.py"]

/-- `RepoAnalyzer.KEY_PATTERNS` (utils/repo_analyzer.py, lines 36-46). -/
def KEY_PATTERNS : List String :=
  [".tf", "dags/", "terraform/", "airflow/", "kafka", "flink", "kestra", "prefect", "mage"]

/-- `RepoAnalyzer.EXCLUDED_EXTENSIONS` (utils/repo_analyzer.py, lines 49-76). -/
def EXCLUDED_EXTENSIONS : List String :=
  [".png", ".jpg", ".jpeg", ".gif", ".svg", ".ico", ".webp", ".pdf", ".zip", ".gz",
   ".tar", ".rar", ".csv", ".parquet", ".pkl", ".h5", ".bin", ".exe", ".dll", ".so",
   ".lock", ".log", ".mp3", ".mp4", ".wav", ".avi"]

/-- The directory fragments excluded by `_should_fetch_file`
(utils/repo_analyzer.py, line 168). -/
def EXCLUDED_DIR_FRAGMENTS : List String :=
  ["/node_modules/", "/__pycache__/", "/.git/", "/venv/", "/.venv/"]

/-- Python `filepath.split('/')[-1]`. -/
def lastPathComponent (filepath : String) : String :=
  ⟨(pySplitChar '/' filepath.data).getLastD []⟩

/-- `RepoAnalyzer._should_fetch_file` (utils/repo_analyzer.py, lines 141-181).
`subpath = some ""` models a Python empty-string subpath, which is falsy and
therefore skips the subpath gate, exactly like `None`. -/
def _should_fetch_file (filepath : String) (subpath : Option String) : Bool :=
  let fpLower := lowerStr filepath
  let subpathRejects : Bool :=
    match subpath with
    | none => false
    | some sp =>
      if sp = "" then false
      else
        let spLower := lowerStr sp
        if !(startsWithStr fpLower (spLower ++ "/")) && !(fpLower == spLower) then
          containsStr filepath "/"
        else false
  if subpathRejects then false
  else if EXCLUDED_EXTENSIONS.any (fun ext => endsWithStr fpLower ext) then false
  else if EXCLUDED_DIR_FRAGMENTS.any (fun x => containsStr fpLower x) then false
  else
    let filename := lowerStr (lastPathComponent filepath)
    if KEY_FILES.any (fun kf => containsStr filename (lowerStr kf)) then true
    else if KEY_PATTERNS.any (fun pat => containsStr fpLower pat) then true
    else false

/-- The file-selection rule stated as one conjunction, following the amended
claim's wording: the path passes the (possibly vacuous) subpath gate, its
lower-cased form neither ends in an excluded extension nor contains a
slash-delimited excluded directory fragment, and it matches a key file name or
a key pattern. -/
def shouldFetchSpec (filepath : String) (subpath : Option String) : Bool :=
  let fpLower := lowerStr filepath
  let subpathOk : Bool :=
    match subpath with
    | none => true
    | some sp =>
      sp = "" ||
      startsWithStr fpLower (lowerStr sp ++ "/") ||
      fpLower == lowerStr sp ||
      !(containsStr filepath "/")
  subpathOk
    && !(EXCLUDED_EXTENSIONS.any (fun ext => endsWithStr fpLower ext))
    && !(EXCLUDED_DIR_FRAGMENTS.any (fun x => containsStr fpLower x))
    && (KEY_FILES.any (fun kf => containsStr (lowerStr (lastPathComponent filepath)) (lowerStr kf))
        || KEY_PATTERNS.any (fun pat => containsStr fpLower pat))

/-! ## `utils/openai_api.py` — title scoring -/

/-- The generic-term stop list of `OpenAIAPI.evaluate_title`
(utils/openai_api.py, line 117). -/
def generic_terms : List String :=
  ["smart", "intelligent", "assistant", "hub", "companion"]

/-- The word-count contribution of `evaluate_title`
(utils/openai_api.py, lines 105-110): `+2` for 3-5 words, `-1` otherwise. -/
def wordCountBonus (wc : Nat) : Int :=
  if 3 ≤ wc ∧ wc ≤ 5 then 2
  else if wc < 3 ∨ wc > 5 then -1
  else 0

/-- The number of whitespace-separated words of a title
(Python `len(title.split())`). -/
def titleWordCount (title : String) : Nat :=
  (pySplitWs title.data).length

/-- The keyword contribution of `evaluate_title` (utils/openai_api.py, lines
112-115): one point per lower-cased title word that occurs among the `\w+`
tokens of the lower-cased URL and summary (repeated words counted again). -/
def keywordMatches (title url summary : String) : Nat :=
  let keywords := findallWordRuns (asciiLower url.data ++ ' ' :: asciiLower summary.data)
  (pySplitWs (asciiLower title.data)).countP (fun w => keywords.contains w)

/-- The generic-term contribution of `evaluate_title` (utils/openai_api.py,
lines 117-120): one point per stop-list term occurring as a substring of the
lower-cased title (each term counted once however often it occurs). -/
def genericTermCount (title : String) : Nat :=
  generic_terms.countP (fun term => containsStr (lowerStr title) term)

/-- The punctuation contribution of `evaluate_title`
(utils/openai_api.py, lines 122-123). -/
def punctuationBonus (title : String) : Int :=
  if containsStr title ":" || containsStr title "-" then 1 else 0

/-- `OpenAIAPI.evaluate_title` (utils/openai_api.py, lines 103-125), with each
accumulation loop of the Python code factored into the count it computes. -/
def evaluate_title (title url summary : String) : Int :=
  wordCountBonus (titleWordCount title)
    + (keywordMatches title url summary : Int)
    - (genericTermCount title : Int)
    + punctuationBonus title

/-- Python `s.count(sub)`: non-overlapping occurrence count, used only to
state the claim's per-occurrence reading of the generic-term penalty. -/
def countOccurAux (sub : List Char) : Nat → List Char → Nat
  | _, [] => 0
  | 0, _ => 0
  | fuel + 1, c :: cs =>
    if sub ≠ [] ∧ startsWithChars sub (c :: cs) then
      1 + countOccurAux sub fuel (List.drop (sub.length - 1) cs)
    else countOccurAux sub fuel cs

/-- Occurrence count of `sub` in `s` (Python `s.count(sub)` for non-empty
`sub`). -/
def countOccur (s sub : String) : Nat :=
  countOccurAux sub.data s.data.length s.data

/-- The score formula exactly as the claim states it, with the generic-term
penalty charged once per *occurrence* of a stop-list term rather than once per
term; used to refute that reading. -/
def claimScorePerOccurrence (title url summary : String) : Int :=
  wordCountBonus (titleWordCount title)
    + (keywordMatches title url summary : Int)
    - ((generic_terms.map (fun term => countOccur (lowerStr title) term)).sum : Int)
    + punctuationBonus title

/-! ## `utils/openai_api.py` — classification parsing -/

/-- `ClassificationResult` (the dict built by
`OpenAIAPI._parse_classification_response`). -/
structure Classification where
  deployment_type : String
  deployment_reason : String
  cloud_provider : String
  cloud_reason : String
deriving DecidableEq, Repr

/-- The initial value of the result dict
(utils/openai_api.py, lines 238-243). -/
def initClassification : Classification :=
  { deployment_type := "Unknown", deployment_reason := "Unknown",
    cloud_provider := "Unknown", cloud_reason := "Unknown" }

/-- `OpenAIAPI._default_classification` (utils/openai_api.py, lines 287-294). -/
def _default_classification : Classification :=
  { deployment_type := "Unknown", deployment_reason := "Could not classify",
    cloud_provider := "Unknown", cloud_reason := "Could not classify" }

/-- `', '.join` on a list of labels. -/
def joinCommaSpace : List String → String
  | [] => ""
  | [t] => t
  | t :: ts => t ++ ", " ++ joinCommaSpace ts

/-- The deployment-type mapping applied to a `DEPLOYMENT:` line's value
(utils/openai_api.py, lines 250-264): independent substring tests for
`batch`, `stream`, and `web`/`service` on the lower-cased value, the matched
labels joined in the fixed order, `Unknown` when none matched. -/
def deployTypeOfValue (value : String) : String :=
  let valueLower := lowerStr value
  let types :=
    (if containsStr valueLower "batch" then ["Batch"] else [])
      ++ (if containsStr valueLower "stream" then ["Streaming"] else [])
      ++ (if containsStr valueLower "web" || containsStr valueLower "service" then
            ["Web Service"] else [])
  if types.isEmpty then "Unknown" else joinCommaSpace types

/-- The cloud-provider mapping applied to a `CLOUD:` line's value
(utils/openai_api.py, lines 270-281). -/
def cloudProviderOfValue (value : String) : String :=
  let valueLower := lowerStr value
  if containsStr valueLower "gcp" || containsStr valueLower "google" then "GCP"
  else if containsStr valueLower "aws" || containsStr valueLower "amazon" then "AWS"
  else if containsStr valueLower "azure" then "Azure"
  else if containsStr valueLower "unknown" then "Unknown"
  else value

/-- One iteration of the line loop of `_parse_classification_response`
(utils/openai_api.py, lines 246-283). -/
def parseClassificationLine (res : Classification) (rawLine : String) : Classification :=
  let line := pyStripStr rawLine
  if startsWithStr line "DEPLOYMENT:" then
    { res with deployment_type := deployTypeOfValue (pyStripStr (pyReplaceStr line "DEPLOYMENT:" "")) }
  else if startsWithStr line "DEPLOYMENT_REASON:" then
    { res with deployment_reason := pyStripStr (pyReplaceStr line "DEPLOYMENT_REASON:" "") }
  else if startsWithStr line "CLOUD:" then
    { res with cloud_provider := cloudProviderOfValue (pyStripStr (pyReplaceStr line "CLOUD:" "")) }
  else if startsWithStr line "CLOUD_REASON:" then
    { res with cloud_reason := pyStripStr (pyReplaceStr line "CLOUD_REASON:" "") }
  else res

/-- `OpenAIAPI._parse_classification_response`
(utils/openai_api.py, lines 236-285). -/
def _parse_classification_response (response : String) : Classification :=
  ((pySplitChar '\n' (pyStrip response.data)).map (fun l => (⟨l⟩ : String))).foldl
    parseClassificationLine initClassification

/-- The deployment mapping as the spec words it: the labels whose trigger
substrings occur in the (lower-cased) value, kept in the fixed order Batch,
Streaming, Web Service, comma-joined; `Unknown` if none. -/
def specDeployTypeOfValue (value : String) : String :=
  let valueLower := lowerStr value
  let table : List (String × List String) :=
    [("Batch", ["batch"]), ("Streaming", ["stream"]), ("Web Service", ["web", "service"])]
  let matched := (table.filter (fun p => p.2.any (fun sub => containsStr valueLower sub))).map
    (fun p => p.1)
  if matched.isEmpty then "Unknown" else joinCommaSpace matched

/-- The cloud mapping as the spec words it: first matching rule of the
substring table wins, `Unknown` for an explicit unknown, and the raw value is
passed through unmodified when no rule matches. -/
def specCloudProviderOfValue (value : String) : String :=
  let valueLower := lowerStr value
  let table : List (List String × String) :=
    [(["gcp", "google"], "GCP"), (["aws", "amazon"], "AWS"),
     (["azure"], "Azure"), (["unknown"], "Unknown")]
  match table.find? (fun p => p.1.any (fun sub => containsStr valueLower sub)) with
  | some p => p.2
  | none => value

/-- The post-LLM-call behaviour of `OpenAIAPI.classify_deployment_and_cloud`
(utils/openai_api.py, lines 226-234): the LLM transport is modelled by the
`llmResponse` oracle (`none` models both an exception inside `self.llm` and a
`None` return); a `None` or empty (falsy) response yields the default
classification, anything else is parsed.  The `valid_deployment_types`
argument is only interpolated into the prompt text, which the parse of the
response never consults. -/
def classify_deployment_and_cloud (validDeploymentTypes : Option (List String))
    (llmResponse : Option String) : Classification :=
  let _valid := validDeploymentTypes.getD ["Batch", "Streaming", "Web Service"]
  match llmResponse with
  | none => _default_classification
  | some r => if r = "" then _default_classification else _parse_classification_response r

/-! ## `utils/csv_handler.py` — `fix_mojibake` -/

/-- A pandas cell as seen by `fix_mojibake`: a null (`None`/`NaN`), a string,
or some other non-string object (modelled opaquely by a numeric tag). -/
inductive PyCell where
  | null : PyCell
  | str : String → PyCell
  | obj : Nat → PyCell
deriving DecidableEq, Repr

/-- Python `text.encode('latin-1')`: each code point below 256 becomes one
byte; any higher code point raises `UnicodeEncodeError` (modelled as `none`). -/
def latin1Encode : List Char → Option (List Nat)
  | [] => some []
  | c :: cs =>
    if c.toNat ≤ 255 then (latin1Encode cs).map (fun bs => c.toNat :: bs)
    else none

/-- A UTF-8 continuation byte. -/
def utf8IsCont (b : Nat) : Bool := decide (0x80 ≤ b ∧ b ≤ 0xBF)

/-- The admissible second byte after a three-byte leader (rules out overlong
encodings for `0xE0` and surrogate code points for `0xED`). -/
def utf8SecondOf3Ok (b1 b2 : Nat) : Bool :=
  if b1 = 0xE0 then decide (0xA0 ≤ b2 ∧ b2 ≤ 0xBF)
  else if b1 = 0xED then decide (0x80 ≤ b2 ∧ b2 ≤ 0x9F)
  else utf8IsCont b2

/-- The admissible second byte after a four-byte leader (rules out overlong
encodings for `0xF0` and code points past `U+10FFFF` for `0xF4`). -/
def utf8SecondOf4Ok (b1 b2 : Nat) : Bool :=
  if b1 = 0xF0 then decide (0x90 ≤ b2 ∧ b2 ≤ 0xBF)
  else if b1 = 0xF4 then decide (0x80 ≤ b2 ∧ b2 ≤ 0x8F)
  else utf8IsCont b2

/-- Python `bytes.decode('utf-8')` with strict error handling:
`none` models `UnicodeDecodeError`. -/
def utf8Decode : List Nat → Option (List Char)
  | [] => some []
  | b1 :: rest =>
    if b1 < 0x80 then (utf8Decode rest).map (fun cs => Char.ofNat b1 :: cs)
    else if b1 < 0xC2 then none
    else if b1 ≤ 0xDF then
      match rest with
      | b2 :: rest2 =>
        if utf8IsCont b2 then
          (utf8Decode rest2).map (fun cs => Char.ofNat ((b1 - 0xC0) * 0x40 + (b2 - 0x80)) :: cs)
        else none
      | [] => none
    else if b1 ≤ 0xEF then
      match rest with
      | b2 :: b3 :: rest3 =>
        if utf8SecondOf3Ok b1 b2 && utf8IsCont b3 then
          (utf8Decode rest3).map (fun cs =>
            Char.ofNat ((b1 - 0xE0) * 0x1000 + (b2 - 0x80) * 0x40 + (b3 - 0x80)) :: cs)
        else none
      | _ => none
    else if b1 ≤ 0xF4 then
      match rest with
      | b2 :: b3 :: b4 :: rest4 =>
        if utf8SecondOf4Ok b1 b2 && utf8IsCont b3 && utf8IsCont b4 then
          (utf8Decode rest4).map (fun cs =>
            Char.ofNat ((b1 - 0xF0) * 0x40000 + (b2 - 0x80) * 0x1000
              + (b3 - 0x80) * 0x40 + (b4 - 0x80)) :: cs)
        else none
      | _ => none
    else none

/-- The repair expression `text.encode('latin-1').decode('utf-8')` of
`fix_mojibake` (utils/csv_handler.py, line 16); `none` models either
`UnicodeEncodeError` or `UnicodeDecodeError`. -/
def mojibakeRepair (s : String) : Option String :=
  (latin1Encode s.data).bind (fun bs => (utf8Decode bs).map (fun cs => (⟨cs⟩ : String)))

/-- The tell-tale marker test of `fix_mojibake` (utils/csv_handler.py,
line 15). -/
def hasMojibakeMarker (s : String) : Bool :=
  containsStr s "Ã" || containsStr s "â€" || containsStr s "Â"

/-- `fix_mojibake` (utils/csv_handler.py, lines 4-19): nulls and non-strings
pass through; strings carrying a marker are re-encoded as Latin-1 and decoded
as UTF-8, and the original text is kept when that repair raises. -/
def fix_mojibake : PyCell → PyCell
  | .null => .null
  | .obj n => .obj n
  | .str s =>
    if hasMojibakeMarker s then
      match mojibakeRepair s with
      | some t => .str t
      | none => .str s
    else .str s

/-! ## `utils/openai_api.py` — `evaluate_and_revise_titles` -/

/-- Key order of a Python dict comprehension over a list: first occurrence of
each key, in encounter order. -/
def pyDictKeysAux (seen : List String) : List String → List String
  | [] => []
  | t :: ts =>
    if t ∈ seen then pyDictKeysAux seen ts
    else t :: pyDictKeysAux (t :: seen) ts

/-- The key list of `{title: score for title in titles}`. -/
def pyDictKeys (titles : List String) : List String :=
  pyDictKeysAux [] titles

/-- Python `max(keys, key=score)`: the first key attaining the maximal score
(`max` keeps the current item unless a strictly larger one appears). -/
def pickBest (score : String → Int) : List String → String
  | [] => ""
  | t :: ts => ts.foldl (fun b x => if score b < score x then x else b) t

/-- The single quote character, used in the feedback string of
`evaluate_and_revise_titles`. -/
def singleQuote : String := ⟨[Char.ofNat 39]⟩

/-- The feedback string of `evaluate_and_revise_titles`
(utils/openai_api.py, lines 143-145). -/
def reviseFeedback (bestTitle : String) (score : Int) : String :=
  "The best title is " ++ singleQuote ++ bestTitle ++ singleQuote
    ++ " with a score of " ++ toString score ++ "."

/-- `OpenAIAPI.evaluate_and_revise_titles` (utils/openai_api.py, lines
127-146), instrumented: the network-backed `generate_multiple_titles` call of
the regeneration branch is modelled by the oracle `regenRounds` (the candidate
lists successive calls would return — the code makes at most one such call, and
a failed call returns `[]`), and the second component of the result counts how
many regeneration calls were made.  The first component is the Python return
value `(feedback, best_title)`. -/
def evaluate_and_revise_titles (titles : List String) (url summary : String)
    (regenRounds : List (List String)) : (String × String) × Nat :=
  let score := fun t => evaluate_title t url summary
  let keys := pyDictKeys titles
  let best := pickBest score keys
  if score best < 3 then
    let newTitles := regenRounds.headD []
    let combinedKeys := pyDictKeys (titles ++ newTitles)
    let best2 := pickBest score combinedKeys
    ((reviseFeedback best2 (score best2), best2), 1)
  else
    ((reviseFeedback best (score best), best), 0)

/-- The best title returned by `evaluate_and_revise_titles`. -/
def revisedTitle (titles : List String) (url summary : String)
    (regenRounds : List (List String)) : String :=
  (evaluate_and_revise_titles titles url summary regenRounds).1.2

/-- How many regeneration calls `evaluate_and_revise_titles` makes. -/
def regenCalls (titles : List String) (url summary : String)
    (regenRounds : List (List String)) : Nat :=
  (evaluate_and_revise_titles titles url summary regenRounds).2

/-- The score of the best original candidate (the maximum score over the
input titles, attained by the title `max` picks). -/
def bestOriginalScore (titles : List String) (url summary : String) : Int :=
  evaluate_title (pickBest (fun t => evaluate_title t url summary) (pyDictKeys titles)) url summary

/-! ## `src/generate_titles_and_classify.py` — `process_single_project` -/

/-- The processing status of one row. -/
inductive RowStatus where
  | success : RowStatus
  | skip : RowStatus
  | error : RowStatus
deriving DecidableEq, Repr

/-- One input row of the working dataset, as read by
`process_single_project`; `none` models a null/NaN cell. -/
structure Row where
  project_url : String
  project_title : Option String
  deploymentType : Option String
  reason : Option String
  cloud : Option String
deriving DecidableEq, Repr

/-- The result dict built by `process_single_project`
(src/generate_titles_and_classify.py, lines 98-104). -/
structure RowResult where
  project_title : Option String
  deploymentType : Option String
  reason : Option String
  cloud : Option String
  status : RowStatus
deriving DecidableEq, Repr

/-- The outcomes of the network-backed calls made while processing one row:
`analyze` is `repo_analyzer.analyze_repo` (its `files` dict, or the exception
it raised), `classify` is `openai_api.classify_deployment_and_cloud`,
`summarize` is `openai_api.generate_summary`, `genTitles` is
`openai_api.generate_multiple_titles`, and `regenRounds` feeds the
regeneration branch of `evaluate_and_revise_titles`.  An `Except.error`
carries the Python exception message. -/
structure Oracles where
  analyze : Except String (List (String × String))
  classify : Except String Classification
  summarize : Except String String
  genTitles : Except String (List String)
  regenRounds : List (List String)

/-- The initial result dict: the row's current four fields with status
`success` (src/generate_titles_and_classify.py, lines 98-104). -/
def initResult (row : Row) : RowResult :=
  { project_title := row.project_title, deploymentType := row.deploymentType,
    reason := row.reason, cloud := row.cloud, status := .success }

/-- The skip predicate of `process_single_project`
(src/generate_titles_and_classify.py, lines 107-116): title and deployment
type both non-null and neither `Unknown` nor `Error`. -/
def fullyProcessed (row : Row) : Bool :=
  match row.project_title, row.deploymentType with
  | some t, some d => t ≠ "Unknown" && t ≠ "Error" && d ≠ "Unknown" && d ≠ "Error"
  | _, _ => false

/-- Python `a or b` for an optional string `a`: `None` and the empty string
are falsy. -/
def pyOrStr (a : Option String) (b : String) : String :=
  match a with
  | none => b
  | some s => if s = "" then b else s

/-- `truncate_text` (src/generate_titles_and_classify.py, lines 84-85). -/
def truncate_text (text : String) (maxCharacters : Nat := 3500) : String :=
  pyTakeStr maxCharacters text

/-- The combined file content built for title generation
(src/generate_titles_and_classify.py, lines 148-151). -/
def combinedContent (files : List (String × String)) : String :=
  files.foldl (fun acc fc => acc ++ "\n=== " ++ fc.1 ++ " ===\n" ++ pyTakeStr 2000 fc.2) ""

/-- Step 3 of the `try` block of `process_single_project`
(src/generate_titles_and_classify.py, lines 146-175): title generation.  A
thrown exception carries the result dict as it stood at the raise point. -/
def titleStep (row : Row) (o : Oracles) (files : List (String × String))
    (res : RowResult) : Except (String × RowResult) RowResult :=
  if row.project_title.isNone then
    let combined := truncate_text (combinedContent files) 6000
    if combined ≠ "" then
      match o.summarize with
      | .error e => .error (e, res)
      | .ok summary =>
        if summary ≠ "" then
          match o.genTitles with
          | .error e => .error (e, res)
          | .ok titles =>
            if titles ≠ [] then
              let best := revisedTitle titles row.project_url summary o.regenRounds
              .ok { res with project_title := some best, status := .success }
            else .ok { res with project_title := some "Unknown", status := .success }
        else .ok { res with project_title := some "Unknown", status := .success }
    else .ok { res with project_title := some "Unknown", status := .success }
  else .ok { res with status := .success }

/-- Step 2 of the `try` block of `process_single_project`
(src/generate_titles_and_classify.py, lines 134-144): classification, run only
when the row's deployment type is null or `Unknown`. -/
def classifyStep (row : Row) (o : Oracles) (files : List (String × String))
    (res : RowResult) : Except (String × RowResult) RowResult :=
  if row.deploymentType.isNone || row.deploymentType == some "Unknown" then
    match o.classify with
    | .error e => .error (e, res)
    | .ok c =>
      titleStep row o files
        { res with deploymentType := some c.deployment_type,
                   reason := some c.deployment_reason,
                   cloud := some c.cloud_provider }
  else titleStep row o files res

/-- The `try` block of `process_single_project`
(src/generate_titles_and_classify.py, lines 120-175). -/
def tryBlock (row : Row) (o : Oracles) : Except (String × RowResult) RowResult :=
  let res0 := initResult row
  match o.analyze with
  | .error e => .error (e, res0)
  | .ok files =>
    if files.isEmpty then
      .ok { project_title := some "Unknown", deploymentType := some "Unknown",
            reason := some "No files fetched", cloud := some "Unknown", status := .skip }
    else classifyStep row o files res0

/-- `process_single_project` (src/generate_titles_and_classify.py, lines
88-184), minus the row index it merely passes through.  The skip check runs
before the `try` block; the `except` handler (lines 177-184) turns any
exception raised inside the block into an error result and never re-raises —
the Lean embedding is total, so no exception can escape. -/
def process_single_project (row : Row) (o : Oracles) : RowResult :=
  if fullyProcessed row then { initResult row with status := .skip }
  else
    match tryBlock row o with
    | .ok r => r
    | .error (e, res) =>
      { project_title := some (pyOrStr res.project_title "Error"),
        deploymentType := some "Error",
        reason := some (pyTakeStr 100 e),
        cloud := some "Error",
        status := .error }

/-! ## Theorems -/

/-- C1: `parse_github_url` maps `https://github.com/o/r`,
`https://github.com/o/r.git` and `https://github.com/o/r/tree/main` to
`("o", "r", none)`, maps `https://github.com/o/r/tree/main/sub/dir` to
`("o", "r", some "sub/dir")` with the subpath's case preserved, and maps
`not-a-url` to `(none, none, none)` without raising. -/
theorem parse_github_url_resolver_correct :
    parse_github_url "https://github.com/o/r" = (some "o", some "r", none)
    ∧ parse_github_url "https://github.com/o/r.git" = (some "o", some "r", none)
    ∧ parse_github_url "https://github.com/o/r/tree/main" = (some "o", some "r", none)
    ∧ parse_github_url "https://github.com/o/r/tree/main/sub/dir"
        = (some "o", some "r", some "sub/dir")
    ∧ parse_github_url "https://github.com/o/r/tree/main/Sub/Dir"
        = (some "o", some "r", some "Sub/Dir")
    ∧ parse_github_url "not-a-url" = (none, none, none) := by
  refine ⟨by decide, by decide, by decide, by decide, by decide, by decide⟩

/-- C8 counterexample: the claim says every URL that does not contain
`github.com` parses to `(none, none, none)`, but on
`https://gitlab.com/o/r` the code returns the spurious triple
`(some "https:", some "", none)`. -/
theorem parse_github_url_gitlab_not_allnull :
    parse_github_url "https://gitlab.com/o/r" = (some "https:", some "", none)
    ∧ parse_github_url "https://gitlab.com/o/r" ≠ (none, none, none) := by
  refine ⟨by decide, by decide⟩

/-- C8 amended: `parse_github_url` never throws (it is a total function), and
it returns the all-null triple exactly when the normalised URL — with every
occurrence of `https://github.com/` removed — splits on `/` into fewer than
two parts.  A slash-free unparseable input such as `not-a-url` therefore
yields all-null, but a non-GitHub URL containing slashes yields spurious
non-null components instead. -/
theorem parse_github_url_allnull_iff :
    (∀ url : String,
      parse_github_url url = (none, none, none) ↔ (githubUrlParts url).length < 2)
    ∧ parse_github_url "not-a-url" = (none, none, none)
    ∧ parse_github_url "https://gitlab.com/o/r" = (some "https:", some "", none) := by
  refine ⟨fun url => ?_, by decide, by decide⟩
  unfold parse_github_url
  rcases h : githubUrlParts url with _ | ⟨a, _ | ⟨b, t⟩⟩ <;> simp

/-- C9: `fix_mojibake` repairs `SÃ£o Paulo` to `São Paulo` by re-encoding as
Latin-1 and decoding as UTF-8, leaves marker-free text and null or non-string
cells unchanged, and swallows a failing repair, returning the original text. -/
theorem fix_mojibake_correct :
    fix_mojibake (.str "SÃ£o Paulo") = .str "São Paulo"
    ∧ fix_mojibake (.str "Normal text") = .str "Normal text"
    ∧ fix_mojibake .null = .null
    ∧ (∀ n, fix_mojibake (.obj n) = .obj n)
    ∧ (∀ s : String, mojibakeRepair s = none → fix_mojibake (.str s) = .str s) := by
  refine ⟨by decide, by decide, rfl, fun n => rfl, fun s h => ?_⟩
  unfold fix_mojibake
  rcases hm : hasMojibakeMarker s <;> simp [hm, h]

/-- C9 witness: the repair of the lone marker `Ã` fails (its Latin-1 bytes are
not valid UTF-8), and the text is returned unchanged. -/
theorem fix_mojibake_correct_witness :
    fix_mojibake (.str "Ã") = .str "Ã" :=
  fix_mojibake_correct.2.2.2.2 "Ã" (by decide)

/-- C10: the classification parser ignores `valid_deployment_types`: with the
course-valid set `["Batch", "Streaming"]` and a response whose `DEPLOYMENT`
value says `Web Service`, `classify_deployment_and_cloud` still returns the
out-of-set label `Web Service`, and the result never depends on the valid set
at all. -/
theorem classify_ignores_valid_types :
    (classify_deployment_and_cloud (some ["Batch", "Streaming"])
        (some "DEPLOYMENT: Web Service\nDEPLOYMENT_REASON: FastAPI app\nCLOUD: AWS\nCLOUD_REASON: S3")).deployment_type
      = "Web Service"
    ∧ "Web Service" ∉ ["Batch", "Streaming"]
    ∧ (∀ (v1 v2 : Option (List String)) (r : Option String),
        classify_deployment_and_cloud v1 r = classify_deployment_and_cloud v2 r) := by
  refine ⟨by decide, by decide, fun v1 v2 r => rfl⟩

/-- C2: `_parse_classification_response` parses the crafted response to
`deployment_type = "Batch"`, `cloud_provider = "GCP"` (and the reasons), joins
multiple matched deployment labels as `Batch, Streaming`, and on every
`DEPLOYMENT` / `CLOUD` value its mapping agrees with the spec's description:
independent case-insensitive substring tests joined in the fixed label order
with `Unknown` when none match, and the substring-table cloud mapping that
passes unmapped raw values through unmodified. -/
theorem parse_classification_matches_spec :
    _parse_classification_response
        "DEPLOYMENT: Batch\nDEPLOYMENT_REASON: x\nCLOUD: GCP\nCLOUD_REASON: y"
      = { deployment_type := "Batch", deployment_reason := "x",
          cloud_provider := "GCP", cloud_reason := "y" }
    ∧ (_parse_classification_response
        "DEPLOYMENT: Batch, Streaming\nDEPLOYMENT_REASON: x\nCLOUD: GCP\nCLOUD_REASON: y").deployment_type
      = "Batch, Streaming"
    ∧ (∀ v : String, deployTypeOfValue v = specDeployTypeOfValue v)
    ∧ (∀ v : String, cloudProviderOfValue v = specCloudProviderOfValue v) := by
  refine ⟨by decide, by decide, fun v => ?_, fun v => ?_⟩
  · unfold deployTypeOfValue specDeployTypeOfValue
    cases hb : containsStr (lowerStr v) "batch" <;>
      cases hs : containsStr (lowerStr v) "stream" <;>
        cases hw : containsStr (lowerStr v) "web" <;>
          cases hv : containsStr (lowerStr v) "service" <;>
            simp [hb, hs, hw, hv, List.filter, joinCommaSpace]
  · unfold cloudProviderOfValue specCloudProviderOfValue
    cases h1 : containsStr (lowerStr v) "gcp" <;>
      cases h2 : containsStr (lowerStr v) "google" <;>
        cases h3 : containsStr (lowerStr v) "aws" <;>
          cases h4 : containsStr (lowerStr v) "amazon" <;>
            cases h5 : containsStr (lowerStr v) "azure" <;>
              cases h6 : containsStr (lowerStr v) "unknown" <;>
                simp [h1, h2, h3, h4, h5, h6, List.find?]

/-- C4 counterexample: the claim says every path under `node_modules/` is
excluded, but the code only excludes paths containing `/node_modules/` with a
leading slash, so the root-level `node_modules/README.md` is accepted. -/
theorem should_fetch_root_node_modules :
    _should_fetch_file "node_modules/README.md" none = true := by decide

/-- C4 amended: `_should_fetch_file` accepts a path iff it passes the subpath
gate (vacuous when no subpath or an empty subpath is given; otherwise the path
must lie under `subpath + "/"` case-insensitively, equal the subpath
case-insensitively, or be a root-level file with no `/`), its lower-cased form
does not end in an excluded extension, its lower-cased form does not contain a
slash-delimited excluded directory fragment (`/node_modules/`,
`/__pycache__/`, `/.git/`, `/venv/`, `/.venv/` — so a root-level
`node_modules/...` path escapes this exclusion), and its basename contains a
key-file name or its path contains a key-pattern substring.  Every path ending
in an excluded extension is excluded regardless of name, `README.md` and
`docker-compose.yml` are included, and non-root-level `node_modules` paths are
excluded. -/
theorem should_fetch_matches_spec :
    (∀ (fp : String) (sp : Option String),
        _should_fetch_file fp sp = shouldFetchSpec fp sp)
    ∧ (∀ (fp : String) (sp : Option String),
        EXCLUDED_EXTENSIONS.any (fun ext => endsWithStr (lowerStr fp) ext) = true →
        _should_fetch_file fp sp = false)
    ∧ _should_fetch_file "image.png" none = false
    ∧ _should_fetch_file "data.csv" none = false
    ∧ _should_fetch_file "model.pkl" none = false
    ∧ _should_fetch_file "README.md" none = true
    ∧ _should_fetch_file "docker-compose.yml" none = true
    ∧ _should_fetch_file "src/node_modules/README.md" none = false := by
  refine ⟨fun fp sp => ?_, fun fp sp h => ?_, by decide, by decide, by decide,
    by decide, by decide, by decide⟩
  · unfold _should_fetch_file shouldFetchSpec
    rcases sp with _ | sp
    · cases hext : EXCLUDED_EXTENSIONS.any (fun ext => endsWithStr (lowerStr fp) ext) <;>
        cases hdir : EXCLUDED_DIR_FRAGMENTS.any (fun x => containsStr (lowerStr fp) x) <;>
          cases hkf : KEY_FILES.any (fun kf =>
              containsStr (lowerStr (lastPathComponent fp)) (lowerStr kf)) <;>
            cases hpat : KEY_PATTERNS.any (fun pat => containsStr (lowerStr fp) pat) <;>
              simp [hext, hdir, hkf, hpat]
    · by_cases hsp : sp = ""
      · cases hext : EXCLUDED_EXTENSIONS.any (fun ext => endsWithStr (lowerStr fp) ext) <;>
          cases hdir : EXCLUDED_DIR_FRAGMENTS.any (fun x => containsStr (lowerStr fp) x) <;>
            cases hkf : KEY_FILES.any (fun kf =>
                containsStr (lowerStr (lastPathComponent fp)) (lowerStr kf)) <;>
              cases hpat : KEY_PATTERNS.any (fun pat => containsStr (lowerStr fp) pat) <;>
                simp [hsp, hext, hdir, hkf, hpat]
      · cases hst : startsWithStr (lowerStr fp) (lowerStr sp ++ "/") <;>
          cases heq : lowerStr fp == lowerStr sp <;>
            cases hsl : containsStr fp "/" <;>
              cases hext : EXCLUDED_EXTENSIONS.any (fun ext => endsWithStr (lowerStr fp) ext) <;>
                cases hdir : EXCLUDED_DIR_FRAGMENTS.any (fun x => containsStr (lowerStr fp) x) <;>
                  cases hkf : KEY_FILES.any (fun kf =>
                      containsStr (lowerStr (lastPathComponent fp)) (lowerStr kf)) <;>
                    cases hpat : KEY_PATTERNS.any (fun pat => containsStr (lowerStr fp) pat) <;>
                      simp [hsp, hst, heq, hsl, hext, hdir, hkf, hpat]
  · unfold _should_fetch_file
    simp only [h]
    split <;> simp

/-- C4 witness: the excluded-extension implication applied to a `.png` path
under a subpath. -/
theorem should_fetch_matches_spec_witness :
    _should_fetch_file "project/plot.png" (some "project") = false :=
  should_fetch_matches_spec.2.1 "project/plot.png" (some "project") (by decide)

/-- C5 counterexample: the claim charges the generic-term penalty once per
*occurrence*; on `"Smart Smart Hub"` (with unrelated URL and summary) that
formula gives −1 (word bonus +2, three occurrences of stop-list terms), but
`evaluate_title` gives 0 because each stop-list term is only tested for
presence and charged once. -/
theorem evaluate_title_not_per_occurrence :
    evaluate_title "Smart Smart Hub" "x" "y" = 0
    ∧ claimScorePerOccurrence "Smart Smart Hub" "x" "y" = -1
    ∧ evaluate_title "Smart Smart Hub" "x" "y"
        ≠ claimScorePerOccurrence "Smart Smart Hub" "x" "y" := by
  refine ⟨by decide, by decide, by decide⟩

/-- C5 amended: `evaluate_title` returns the sum of +2 for a word count in
[3,5] and −1 outside it, +1 per title word appearing among the URL/summary
tokens, −1 per stop-list term *present* in the title (each term charged once,
however often it occurs), and +1 for a colon or dash.  Consequently, all other
components being equal, a 4-word title with no generic terms scores strictly
higher than a 1-word title, and strictly higher than a 3-5-word title
containing a stop-listed generic term. -/
theorem evaluate_title_score_formula :
    (∀ t u s : String,
      evaluate_title t u s
        = wordCountBonus (titleWordCount t) + (keywordMatches t u s : Int)
            - (genericTermCount t : Int) + punctuationBonus t)
    ∧ (∀ u s t1 t2 : String,
        titleWordCount t1 = 4 → titleWordCount t2 = 1 →
        keywordMatches t1 u s = keywordMatches t2 u s →
        genericTermCount t1 = 0 → genericTermCount t2 = 0 →
        punctuationBonus t1 = punctuationBonus t2 →
        evaluate_title t2 u s < evaluate_title t1 u s)
    ∧ (∀ u s t1 t2 : String,
        3 ≤ titleWordCount t1 → titleWordCount t1 ≤ 5 →
        3 ≤ titleWordCount t2 → titleWordCount t2 ≤ 5 →
        keywordMatches t1 u s = keywordMatches t2 u s →
        genericTermCount t1 = 0 → 1 ≤ genericTermCount t2 →
        punctuationBonus t1 = punctuationBonus t2 →
        evaluate_title t2 u s < evaluate_title t1 u s) := by
  refine ⟨fun t u s => rfl, fun u s t1 t2 h1 h2 hk hg1 hg2 hp => ?_,
    fun u s t1 t2 ha1 hb1 ha2 hb2 hk hg1 hg2 hp => ?_⟩
  · unfold evaluate_title wordCountBonus
    rw [h1, h2, hk, hg1, hg2, hp]
    norm_num
  · unfold evaluate_title wordCountBonus
    rw [hk, hg1, hp]
    have e1 : (3 ≤ titleWordCount t1 ∧ titleWordCount t1 ≤ 5) := ⟨ha1, hb1⟩
    have e2 : (3 ≤ titleWordCount t2 ∧ titleWordCount t2 ≤ 5) := ⟨ha2, hb2⟩
    simp only [if_pos e1, if_pos e2]
    omega

/-- C5 witness: concrete instances of both monotonicity consequences — the
4-word `Nyc Taxi Data Pipeline` beats the 1-word `Pipeline` and beats the
4-word `Smart Taxi Data Trends`, which carries a stop-listed term. -/
theorem evaluate_title_score_formula_witness :
    evaluate_title "Pipeline" "x" "y" < evaluate_title "Nyc Taxi Data Pipeline" "x" "y"
    ∧ evaluate_title "Smart Taxi Data Trends" "x" "y"
        < evaluate_title "Nyc Taxi Data Pipeline" "x" "y" :=
  ⟨evaluate_title_score_formula.2.1 "x" "y" "Nyc Taxi Data Pipeline" "Pipeline"
      (by decide) (by decide) (by decide) (by decide) (by decide) (by decide),
   evaluate_title_score_formula.2.2 "x" "y" "Nyc Taxi Data Pipeline" "Smart Taxi Data Trends"
      (by decide) (by decide) (by decide) (by decide) (by decide) (by decide) (by decide)
      (by decide)⟩

/-- The accumulator of Python `max(..., key=score)` is a member of the list. -/
theorem pickFold_mem (score : String → Int) (t : String) (ts : List String) :
    ts.foldl (fun b x => if score b < score x then x else b) t ∈ t :: ts := by
  induction ts generalizing t with
  | nil => simp
  | cons y ys ih =>
    simp only [List.foldl_cons]
    have h := ih (if score t < score y then y else t)
    by_cases hc : score t < score y <;> simp [hc] at h ⊢ <;> tauto

/-- The accumulator of Python `max(..., key=score)` dominates every member. -/
theorem pickFold_le (score : String → Int) (t : String) (ts : List String) :
    ∀ x ∈ t :: ts,
      score x ≤ score (ts.foldl (fun b x => if score b < score x then x else b) t) := by
  induction ts generalizing t with
  | nil => simp
  | cons y ys ih =>
    intro x hx
    simp only [List.foldl_cons]
    have hacc1 : score t ≤ score (if score t < score y then y else t) := by
      by_cases hc : score t < score y
      · simp [hc]; omega
      · simp [hc]
    have hacc2 : score y ≤ score (if score t < score y then y else t) := by
      by_cases hc : score t < score y
      · simp [hc]
      · simp [hc]; omega
    rcases List.mem_cons.mp hx with rfl | hx2
    · exact le_trans hacc1 (ih _ _ (List.mem_cons_self _ _))
    · rcases List.mem_cons.mp hx2 with rfl | hx3
      · exact le_trans hacc2 (ih _ _ (List.mem_cons_self _ _))
      · exact ih _ x (List.mem_cons_of_mem _ hx3)

/-- `pickBest` returns a member of a non-empty list. -/
theorem pickBest_mem (score : String → Int) (ts : List String) (h : ts ≠ []) :
    pickBest score ts ∈ ts := by
  match ts with
  | [] => exact absurd rfl h
  | t :: rest => exact pickFold_mem score t rest

/-- `pickBest` attains the maximal score of the list. -/
theorem pickBest_le (score : String → Int) (ts : List String) :
    ∀ x ∈ ts, score x ≤ score (pickBest score ts) := by
  match ts with
  | [] => simp
  | t :: rest => exact fun x hx => pickFold_le score t rest x hx

/-- Membership in the dict-key list: an element not previously seen. -/
theorem mem_pyDictKeysAux (x : String) (seen l : List String) :
    x ∈ pyDictKeysAux seen l ↔ x ∈ l ∧ x ∉ seen := by
  induction l generalizing seen with
  | nil => simp [pyDictKeysAux]
  | cons t ts ih =>
    unfold pyDictKeysAux
    by_cases ht : t ∈ seen
    · rw [if_pos ht, ih seen]
      simp only [List.mem_cons]
      constructor
      · rintro ⟨hx, hs⟩
        exact ⟨Or.inr hx, hs⟩
      · rintro ⟨rfl | hx, hs⟩
        · exact absurd ht hs
        · exact ⟨hx, hs⟩
    · rw [if_neg ht]
      simp only [List.mem_cons, ih (t :: seen)]
      constructor
      · rintro (rfl | ⟨hx, hs⟩)
        · exact ⟨Or.inl rfl, ht⟩
        · exact ⟨Or.inr hx, fun hc => hs (Or.inr hc)⟩
      · rintro ⟨rfl | hx, hs⟩
        · exact Or.inl rfl
        · by_cases hxt : x = t
          · exact Or.inl hxt
          · exact Or.inr ⟨hx, fun hc => hc.elim hxt hs⟩

/-- Deduplicating the dict keys preserves membership. -/
theorem mem_pyDictKeys (x : String) (l : List String) : x ∈ pyDictKeys l ↔ x ∈ l := by
  unfold pyDictKeys
  rw [mem_pyDictKeysAux]
  simp

/-- The dict-key list of a non-empty list is non-empty. -/
theorem pyDictKeys_ne_nil (l : List String) (h : l ≠ []) : pyDictKeys l ≠ [] := by
  match l with
  | [] => exact absurd rfl h
  | t :: ts =>
    unfold pyDictKeys pyDictKeysAux
    simp

/-- `evaluate_and_revise_titles` in the regeneration branch: when the best
original score is below 3, the result is the best title over the union of the
original and regenerated candidates, and one regeneration call was made. -/
theorem ev_rev_eq_lt (titles : List String) (url summary : String)
    (rounds : List (List String)) (hlt : bestOriginalScore titles url summary < 3) :
    evaluate_and_revise_titles titles url summary rounds
      = ((reviseFeedback
            (pickBest (fun t => evaluate_title t url summary)
              (pyDictKeys (titles ++ rounds.headD [])))
            (evaluate_title
              (pickBest (fun t => evaluate_title t url summary)
                (pyDictKeys (titles ++ rounds.headD []))) url summary),
          pickBest (fun t => evaluate_title t url summary)
            (pyDictKeys (titles ++ rounds.headD []))), 1) := by
  unfold bestOriginalScore at hlt
  unfold evaluate_and_revise_titles
  simp only [if_pos hlt]

/-- `evaluate_and_revise_titles` without regeneration: when the best original
score is at least 3, the best original title is returned and no regeneration
call is made. -/
theorem ev_rev_eq_ge (titles : List String) (url summary : String)
    (rounds : List (List String)) (hge : ¬ bestOriginalScore titles url summary < 3) :
    evaluate_and_revise_titles titles url summary rounds
      = ((reviseFeedback
            (pickBest (fun t => evaluate_title t url summary) (pyDictKeys titles))
            (evaluate_title
              (pickBest (fun t => evaluate_title t url summary) (pyDictKeys titles))
              url summary),
          pickBest (fun t => evaluate_title t url summary) (pyDictKeys titles)), 0) := by
  unfold bestOriginalScore at hge
  unfold evaluate_and_revise_titles
  simp only [if_neg hge]

/-- C6: on a non-empty candidate list, `evaluate_and_revise_titles` makes
exactly one regeneration call when the best original candidate scores below 3
and none when it scores 3 or higher — so at most one extra round ever happens —
and in the regeneration case it returns a maximum-scoring title over the union
of the original and regenerated candidates. -/
theorem evaluate_and_revise_regen_bound (titles : List String) (url summary : String)
    (rounds : List (List String)) (hne : titles ≠ []) :
    (regenCalls titles url summary rounds
        = if bestOriginalScore titles url summary < 3 then 1 else 0)
    ∧ regenCalls titles url summary rounds ≤ 1
    ∧ (∀ t ∈ titles, evaluate_title t url summary ≤ bestOriginalScore titles url summary)
    ∧ (bestOriginalScore titles url summary < 3 →
        revisedTitle titles url summary rounds ∈ titles ++ rounds.headD []
        ∧ ∀ t ∈ titles ++ rounds.headD [],
            evaluate_title t url summary
              ≤ evaluate_title (revisedTitle titles url summary rounds) url summary)
    ∧ (3 ≤ bestOriginalScore titles url summary →
        revisedTitle titles url summary rounds ∈ titles
        ∧ ∀ t ∈ titles, evaluate_title t url summary
            ≤ evaluate_title (revisedTitle titles url summary rounds) url summary) := by
  by_cases hlt : bestOriginalScore titles url summary < 3
  · have he := ev_rev_eq_lt titles url summary rounds hlt
    refine ⟨?_, ?_, fun t ht => ?_, fun _ => ⟨?_, fun t ht => ?_⟩,
      fun hge => absurd hlt (by omega)⟩
    · rw [regenCalls, he, if_pos hlt]
    · rw [regenCalls, he]
    · exact pickBest_le (fun t => evaluate_title t url summary) (pyDictKeys titles) t
        ((mem_pyDictKeys t titles).mpr ht)
    · rw [revisedTitle, he]
      exact (mem_pyDictKeys _ _).mp
        (pickBest_mem (fun t => evaluate_title t url summary) _
          (pyDictKeys_ne_nil _ (by rcases titles with _ | ⟨a, as⟩; exact absurd rfl hne; simp)))
    · rw [revisedTitle, he]
      exact pickBest_le (fun t => evaluate_title t url summary)
        (pyDictKeys (titles ++ rounds.headD [])) t ((mem_pyDictKeys t _).mpr ht)
  · have he := ev_rev_eq_ge titles url summary rounds hlt
    refine ⟨?_, ?_, fun t ht => ?_, fun hc => absurd hc hlt, fun _ => ⟨?_, fun t ht => ?_⟩⟩
    · rw [regenCalls, he, if_neg hlt]
    · rw [regenCalls, he]
      omega
    · exact pickBest_le (fun t => evaluate_title t url summary) (pyDictKeys titles) t
        ((mem_pyDictKeys t titles).mpr ht)
    · rw [revisedTitle, he]
      exact (mem_pyDictKeys _ _).mp
        (pickBest_mem (fun t => evaluate_title t url summary) _ (pyDictKeys_ne_nil _ hne))
    · rw [revisedTitle, he]
      exact pickBest_le (fun t => evaluate_title t url summary) (pyDictKeys titles) t
        ((mem_pyDictKeys t titles).mpr ht)

/-- C6 witness: two low-scoring candidates trigger exactly one regeneration
call, and a regenerated 4-word title wins. -/
theorem evaluate_and_revise_regen_bound_witness :
    regenCalls ["A", "B"] "x" "y" [["Nyc Taxi Data Pipeline"]]
        = (if bestOriginalScore ["A", "B"] "x" "y" < 3 then 1 else 0)
    ∧ regenCalls ["A", "B"] "x" "y" [["Nyc Taxi Data Pipeline"]] ≤ 1 :=
  ⟨(evaluate_and_revise_regen_bound ["A", "B"] "x" "y" [["Nyc Taxi Data Pipeline"]]
      (by decide)).1,
   (evaluate_and_revise_regen_bound ["A", "B"] "x" "y" [["Nyc Taxi Data Pipeline"]]
      (by decide)).2.1⟩

/-- C3: a row already satisfying the fully-processed predicate is skipped:
`process_single_project` returns status `skip` with all four output fields
equal to the row's existing values, and the result does not depend on any of
the network oracles — no repository analysis, classification or title
generation is consulted, so re-running on such a row is a no-op. -/
theorem process_skip_idempotent (row : Row) (o o2 : Oracles)
    (h : fullyProcessed row = true) :
    process_single_project row o
      = { project_title := row.project_title, deploymentType := row.deploymentType,
          reason := row.reason, cloud := row.cloud, status := .skip }
    ∧ process_single_project row o = process_single_project row o2 := by
  unfold process_single_project
  simp only [if_pos h]
  constructor <;> trivial

/-- C3 witness: a fully-processed row is skipped unchanged even when every
network call would fail. -/
theorem process_skip_idempotent_witness :
    process_single_project
        { project_url := "https://github.com/o/r", project_title := some "NYC Taxi Analytics",
          deploymentType := some "Batch", reason := some "Uses Airflow",
          cloud := some "GCP" }
        { analyze := .error "network down", classify := .error "network down",
          summarize := .error "network down", genTitles := .error "network down",
          regenRounds := [] }
      = { project_title := some "NYC Taxi Analytics", deploymentType := some "Batch",
          reason := some "Uses Airflow", cloud := some "GCP", status := .skip } :=
  (process_skip_idempotent
    { project_url := "https://github.com/o/r", project_title := some "NYC Taxi Analytics",
      deploymentType := some "Batch", reason := some "Uses Airflow",
      cloud := some "GCP" }
    { analyze := .error "network down", classify := .error "network down",
      summarize := .error "network down", genTitles := .error "network down",
      regenRounds := [] }
    { analyze := .ok [], classify := .error "x", summarize := .error "x",
      genTitles := .error "x", regenRounds := [] }
    (by decide)).1

/-- A thrown exception leaves the result dict of the title step unchanged:
in particular no raise point follows the title assignment. -/
theorem titleStep_err (row : Row) (o : Oracles) (files : List (String × String))
    (res : RowResult) (e : String) (r : RowResult)
    (h : titleStep row o files res = .error (e, r)) : r = res := by
  unfold titleStep at h
  repeat' split at h
  all_goals try dsimp only at h
  all_goals try split at h
  all_goals simp_all

/-- A thrown exception never changes the `project_title` field of the result
dict in the classification step or later. -/
theorem classifyStep_err (row : Row) (o : Oracles) (files : List (String × String))
    (res : RowResult) (e : String) (r : RowResult)
    (h : classifyStep row o files res = .error (e, r)) :
    r.project_title = res.project_title := by
  unfold classifyStep at h
  split at h
  · split at h
    · simp_all
    · rw [titleStep_err _ _ _ _ _ _ h]
  · rw [titleStep_err _ _ _ _ _ _ h]

/-- At any raise point of the `try` block, the result dict still carries the
row's original `project_title`. -/
theorem tryBlock_err (row : Row) (o : Oracles) (e : String) (res : RowResult)
    (h : tryBlock row o = .error (e, res)) :
    res.project_title = row.project_title := by
  unfold tryBlock at h
  split at h
  · simp only [Except.error.injEq, Prod.mk.injEq] at h
    rw [← h.2]
    rfl
  · split at h
    · simp_all
    · exact classifyStep_err _ _ _ _ _ _ h

/-- C7: whatever exception is raised during the analyze/classify/title steps
of a processed (non-skipped) row, `process_single_project` returns — rather
than propagates — a result whose title is the existing one or `Error` (Python
`or` falsiness), whose deployment type and cloud are `Error`, whose reason is
the exception message truncated to 100 characters, and whose status is
`error`.  The embedding is a total function, so no per-item exception can
escape. -/
theorem process_error_isolation (row : Row) (o : Oracles) (e : String) (res : RowResult)
    (hskip : fullyProcessed row = false) (h : tryBlock row o = .error (e, res)) :
    process_single_project row o
      = { project_title := some (pyOrStr row.project_title "Error"),
          deploymentType := some "Error", reason := some (pyTakeStr 100 e),
          cloud := some "Error", status := .error } := by
  unfold process_single_project
  rw [if_neg (by simp [hskip]), h]
  have ht := tryBlock_err row o e res h
  dsimp only
  rw [ht]

/-- C7 witness: a repository-analysis failure on an unprocessed row yields the
error result with the exception message as reason. -/
theorem process_error_isolation_witness :
    process_single_project
        { project_url := "https://github.com/o/r", project_title := none,
          deploymentType := none, reason := none, cloud := none }
        { analyze := .error "boom", classify := .ok initClassification,
          summarize := .ok "", genTitles := .ok [], regenRounds := [] }
      = { project_title := some "Error", deploymentType := some "Error",
          reason := some "boom", cloud := some "Error", status := .error } := by
  rw [process_error_isolation
    { project_url := "https://github.com/o/r", project_title := none,
      deploymentType := none, reason := none, cloud := none }
    { analyze := .error "boom", classify := .ok initClassification,
      summarize := .ok "", genTitles := .ok [], regenRounds := [] }
    "boom"
    (initResult
      { project_url := "https://github.com/o/r", project_title := none,
        deploymentType := none, reason := none, cloud := none })
    (by decide) rfl]
  decide
